import Mathlib

/-!
Verification of the real-time session coordinator of the slidev-feedback
skill.  The coordinator is the `SlidevFeedbackDO` durable object: it keeps
an in-memory registry of WebSocket connections tagged with role and
participant token, an aggregated reaction tally keyed by the string
`slide-emoji`, the current slide cursor, and the set of participant
tokens.  We embed its state and message handlers shallowly: JavaScript
`Map` values become association lists preserving insertion order,
`Set` values become duplicate-free lists, WebSocket handles become
natural numbers, and the side effect of `ws.send` is recorded in an
output list of (connection, message) pairs.  A send failure
(`ws.send` throwing) is modelled by a predicate `fails` on connection
handles, mirroring the try/catch blocks of the source.
-/

namespace SlidevFeedback

/-- Lookup in a JavaScript `Map` modelled as an association list
(first binding for the key wins; insertion keeps keys unique). -/
def mapGet {α β : Type} [DecidableEq α] : List (α × β) → α → Option β
  | [], _ => none
  | (k, v) :: rest, a => if k = a then some v else mapGet rest a

/-- `Map.prototype.set`: overwrite the existing binding in place, or
append a new binding at the end (JavaScript maps preserve insertion
order). -/
def mapSet {α β : Type} [DecidableEq α] : List (α × β) → α → β → List (α × β)
  | [], a, b => [(a, b)]
  | (k, v) :: rest, a, b =>
    if k = a then (a, b) :: rest else (k, v) :: mapSet rest a b

/-- `Map.prototype.delete`: remove the binding for the key, if any. -/
def mapDelete {α β : Type} [DecidableEq α] : List (α × β) → α → List (α × β)
  | [], _ => []
  | (k, v) :: rest, a => if k = a then rest else (k, v) :: mapDelete rest a

/-- `Set.prototype.add`: append unless already present. -/
def setAdd (s : List String) (x : String) : List String :=
  if x ∈ s then s else s ++ [x]

/-- Decimal digit characters of `n`, most significant first; `fuel`
bounds the recursion and any `fuel ≥ n` is exact. -/
def natStrAux : Nat → Nat → List Char
  | 0, _ => []
  | _ + 1, 0 => []
  | fuel + 1, n + 1 =>
    natStrAux fuel ((n + 1) / 10) ++ [Nat.digitChar ((n + 1) % 10)]

/-- Decimal string of a natural number: the rendering a JavaScript
template literal applies to the numeric `slide` field when the source
builds the tally key `slide-emoji`. -/
def natStr (n : Nat) : String :=
  if n = 0 then "0" else (natStrAux n n).asString

/-- The tally key built by `handleReaction`: the template literal
`slide-emoji` of the source. -/
def reactionKey (slide : Nat) (emoji : String) : String :=
  natStr slide ++ "-" ++ emoji

/-- The value of the `sessions` map for one connection: role and
participant token attached at `join`. -/
structure SessionInfo where
  role : String
  sessionToken : String
deriving DecidableEq, Repr

/-- A WebSocket handle. -/
abbrev Conn := Nat

/-- The in-memory state of the `SlidevFeedbackDO` durable object:
`sessions` (connection registry), `reactions` (tally keyed by the
string `slide-emoji`), `currentSlide` (cursor), `participants`
(token set), and `sessionData` (opaque session configuration object,
modelled as a string-keyed association list). -/
structure DOState where
  sessions : List (Conn × SessionInfo)
  reactions : List (String × Nat)
  currentSlide : Nat
  participants : List String
  sessionData : List (String × String)
deriving DecidableEq, Repr

/-- The fresh state set up by the constructor before any storage
restore: empty registry, empty tally, cursor 1, empty participant set. -/
def initState : DOState :=
  { sessions := [], reactions := [], currentSlide := 1,
    participants := [], sessionData := [] }

/-- Outbound messages the durable object sends over WebSockets,
mirroring the JSON objects of the source.  `close` is the notification
payload posted by `closeSession`. -/
inductive OutMsg where
  | init (currentSlide : Nat) (reactions : List (String × Nat)) (participants : Nat)
  | reaction (emoji : String) (slide : Nat) (count : Nat)
  | question (text : String) (slide : Nat) (sessionToken : Option String)
  | slideChange (slide : Nat)
  | participantsCount (count : Nat)
  | update (data : List (String × String))
  | pong
  | close
deriving DecidableEq, Repr

/-- Inbound WebSocket messages (the `message.type` switch of
`handleWebSocketMessage`).  A `sessionToken` of `none` models a JSON
field that is absent or empty — both are falsy at the two places the
source tests it. -/
inductive InMsg where
  | join (role : String) (sessionToken : Option String)
  | reaction (emoji : String) (slide : Nat) (sessionToken : Option String)
  | question (text : String) (slide : Nat) (sessionToken : Option String)
  | slideChange (slide : Nat)
  | update (data : List (String × String))
  | ping
deriving DecidableEq, Repr

/-- `broadcast(message)`: walk the `sessions` map in insertion order,
try `ws.send` on each connection; a throwing send deletes that
connection from the map and the walk continues with the rest.  Returns
the surviving registry and the list of deliveries. -/
def broadcast (sessions : List (Conn × SessionInfo)) (fails : Conn → Bool)
    (m : OutMsg) : List (Conn × SessionInfo) × List (Conn × OutMsg) :=
  match sessions with
  | [] => ([], [])
  | (ws, info) :: rest =>
    if fails ws then broadcast rest fails m
    else ((ws, info) :: (broadcast rest fails m).1,
          (ws, m) :: (broadcast rest fails m).2)

/-- `broadcastToPresenters(message)`: like `broadcast`, but only
connections whose registered role is `presenter` are sent to (and only
those can fail and be deleted). -/
def broadcastToPresenters (sessions : List (Conn × SessionInfo)) (fails : Conn → Bool)
    (m : OutMsg) : List (Conn × SessionInfo) × List (Conn × OutMsg) :=
  match sessions with
  | [] => ([], [])
  | (ws, info) :: rest =>
    if info.role = "presenter" then
      if fails ws then broadcastToPresenters rest fails m
      else ((ws, info) :: (broadcastToPresenters rest fails m).1,
            (ws, m) :: (broadcastToPresenters rest fails m).2)
    else ((ws, info) :: (broadcastToPresenters rest fails m).1,
          (broadcastToPresenters rest fails m).2)

/-- `handleReaction`: increment the tally bucket for the key
`slide-emoji` (creating it at 1 if absent) and broadcast the
post-increment count to all clients.  No validation of any kind is
performed on the emoji or the slide. -/
def handleReaction (st : DOState) (fails : Conn → Bool) (slide : Nat)
    (emoji : String) : DOState × List (Conn × OutMsg) :=
  let key := reactionKey slide emoji
  let current := (mapGet st.reactions key).getD 0
  let reactions := mapSet st.reactions key (current + 1)
  let r := broadcast st.sessions fails (.reaction emoji slide (current + 1))
  ({ st with reactions := reactions, sessions := r.1 }, r.2)

/-- `handleQuestion`: broadcast the question (text, slide, submitting
token) to presenter-role connections only; no state is mutated. -/
def handleQuestion (st : DOState) (fails : Conn → Bool) (text : String)
    (slide : Nat) (tok : Option String) : DOState × List (Conn × OutMsg) :=
  let r := broadcastToPresenters st.sessions fails (.question text slide tok)
  ({ st with sessions := r.1 }, r.2)

/-- `handleSlideChange`: set the cursor to the requested slide —
unconditionally, with no range or role check — and broadcast the new
slide to all clients. -/
def handleSlideChange (st : DOState) (fails : Conn → Bool) (slide : Nat) :
    DOState × List (Conn × OutMsg) :=
  let st1 := { st with currentSlide := slide }
  let r := broadcast st1.sessions fails (.slideChange slide)
  ({ st1 with sessions := r.1 }, r.2)

/-- Object spread `\x7b ...this.sessionData, ...data \x7d`: keys of
`data` override keys of the old object. -/
def objMerge (old new : List (String × String)) : List (String × String) :=
  new.foldl (fun acc kv => mapSet acc kv.1 kv.2) old

/-- `handleUpdate`: merge the update into `sessionData` and broadcast
it to all clients. -/
def handleUpdate (st : DOState) (fails : Conn → Bool)
    (data : List (String × String)) : DOState × List (Conn × OutMsg) :=
  let st1 := { st with sessionData := objMerge st.sessionData data }
  let r := broadcast st1.sessions fails (.update data)
  ({ st1 with sessions := r.1 }, r.2)

/-- `broadcastParticipantCount`: broadcast the current size of the
participant set to all clients. -/
def broadcastParticipantCount (st : DOState) (fails : Conn → Bool) :
    List (Conn × SessionInfo) × List (Conn × OutMsg) :=
  broadcast st.sessions fails (.participantsCount st.participants.length)

/-- The `message` listener dispatch of `handleWebSocketMessage`.
`gen` is the freshly generated token `anon-Date.now()` used when the
join message carries no (truthy) `sessionToken`.  An exception thrown
by a direct `ws.send` (modelled by `fails ws`) is caught by the
listener: mutations already performed stick, later effects are
skipped. -/
def handleWebSocketMessage (st : DOState) (fails : Conn → Bool) (ws : Conn)
    (gen : String) (m : InMsg) : DOState × List (Conn × OutMsg) :=
  match m with
  | .join role tok =>
    let sessions := mapSet st.sessions ws ⟨role, tok.getD gen⟩
    let participants :=
      match tok with
      | some t => setAdd st.participants t
      | none => st.participants
    let st1 := { st with sessions := sessions, participants := participants }
    if fails ws then (st1, [])
    else
      let initMsg : OutMsg :=
        .init st1.currentSlide st1.reactions st1.participants.length
      let r := broadcastParticipantCount st1 fails
      ({ st1 with sessions := r.1 }, (ws, initMsg) :: r.2)
  | .reaction emoji slide _ => handleReaction st fails slide emoji
  | .question text slide tok => handleQuestion st fails text slide tok
  | .slideChange slide => handleSlideChange st fails slide
  | .update data => handleUpdate st fails data
  | .ping =>
    if fails ws then (st, []) else (st, [(ws, .pong)])

/-- The `close` listener of `handleWebSocket`: if the closing
connection is registered with a truthy token, delete that token from
the participant set; delete the connection; broadcast the new
participant count. -/
def handleClose (st : DOState) (fails : Conn → Bool) (ws : Conn) :
    DOState × List (Conn × OutMsg) :=
  let participants :=
    match mapGet st.sessions ws with
    | some info =>
      if info.sessionToken ≠ "" then st.participants.erase info.sessionToken
      else st.participants
    | none => st.participants
  let st1 := { st with sessions := mapDelete st.sessions ws,
                       participants := participants }
  let r := broadcastParticipantCount st1 fails
  ({ st1 with sessions := r.1 }, r.2)

/-- `handleNotify`: broadcast the posted JSON payload to all connected
clients and answer success.  The durable object interprets no payload
specially — a `close` notice is relayed like any other message. -/
def handleNotify (st : DOState) (fails : Conn → Bool) (data : OutMsg) :
    DOState × List (Conn × OutMsg) :=
  let r := broadcast st.sessions fails data
  ({ st with sessions := r.1 }, r.2)

/-- `handleInit`: replace `sessionData` with the posted configuration. -/
def handleInit (st : DOState) (data : List (String × String)) : DOState :=
  { st with sessionData := data }

/-- Every inbound event the durable object processes. -/
inductive Event where
  | message (ws : Conn) (gen : String) (m : InMsg)
  | closeEvt (ws : Conn)
  | notifyEvt (data : OutMsg)
  | initEvt (data : List (String × String))
deriving Repr

/-- One step of the durable object: dispatch an event to its handler. -/
def step (st : DOState) (fails : Conn → Bool) :
    Event → DOState × List (Conn × OutMsg)
  | .message ws gen m => handleWebSocketMessage st fails ws gen m
  | .closeEvt ws => handleClose st fails ws
  | .notifyEvt data => handleNotify st fails data
  | .initEvt data => (handleInit st data, [])

/-- Run a sequence of reaction submissions (slide, emoji), keeping the
resulting state. -/
def runReactions (st : DOState) (fails : Conn → Bool) :
    List (Nat × String) → DOState
  | [] => st
  | m :: rest => runReactions (handleReaction st fails m.1 m.2).1 fails rest

/-- The tally count the state holds for a (slide, emoji) pair, 0 when
the bucket does not exist. -/
def rCount (st : DOState) (slide : Nat) (emoji : String) : Nat :=
  (mapGet st.reactions (reactionKey slide emoji)).getD 0

/-- The session directory record of `slidev_sessions` relevant to
closing: the `is_active` flag. -/
structure DirectoryRecord where
  is_active : Bool
deriving DecidableEq, Repr

/-- `closeSession` of the realtime handler: set `is_active = false` in
the session directory, then post the `close` payload to the durable
object notify endpoint.  Returns the updated record and the payload. -/
def closeSession (db : DirectoryRecord) : DirectoryRecord × OutMsg :=
  ({ db with is_active := false }, OutMsg.close)

/-- `DEFAULT_REACTIONS` of constants.ts: the default allowed reaction
emoji set. -/
def DEFAULT_REACTIONS : List String := ["👍", "❤️", "😂", "🤔", "👏", "🎉"]

/-! ### Association-list map lemmas -/

theorem mapGet_mapSet_self {α β : Type} [DecidableEq α] (m : List (α × β))
    (k : α) (v : β) : mapGet (mapSet m k v) k = some v := by
  induction m with
  | nil => simp [mapGet, mapSet]
  | cons kv rest ih =>
    obtain ⟨a, b⟩ := kv
    by_cases h : a = k
    · simp [mapGet, mapSet, h]
    · simp [mapGet, mapSet, h, ih]

theorem mapGet_mapSet_ne {α β : Type} [DecidableEq α] (m : List (α × β))
    (k k' : α) (v : β) (h : k' ≠ k) :
    mapGet (mapSet m k v) k' = mapGet m k' := by
  have h' : ¬k = k' := fun he => h he.symm
  induction m with
  | nil => simp [mapGet, mapSet, h']
  | cons kv rest ih =>
    obtain ⟨a, b⟩ := kv
    by_cases hk : a = k
    · subst hk
      simp [mapGet, mapSet, h']
    · simp [mapGet, mapSet, hk, ih]

/-! ### Injectivity of the tally key `slide-emoji` -/

theorem digitChar_fin_inj : ∀ d e : Fin 10,
    Nat.digitChar d.val = Nat.digitChar e.val → d = e := by decide

theorem digitChar_ne_dash : ∀ d : Fin 10, Nat.digitChar d.val ≠ '-' := by decide

theorem natStrAux_eq (fuel : Nat) : ∀ n : Nat, n ≤ fuel →
    natStrAux fuel n = (Nat.digits 10 n).reverse.map Nat.digitChar := by
  induction fuel with
  | zero =>
    intro n hn
    have : n = 0 := Nat.le_zero.mp hn
    subst this
    simp [natStrAux]
  | succ f ih =>
    intro n hn
    cases n with
    | zero => simp [natStrAux]
    | succ m =>
      have hdiv : (m + 1) / 10 ≤ f := by
        have := Nat.div_lt_self (Nat.succ_pos m) (by norm_num : 1 < 10)
        omega
      rw [natStrAux, ih _ hdiv,
        Nat.digits_def' (by norm_num : (1:ℕ) < 10) (Nat.succ_pos m)]
      simp

theorem natStr_data (n : Nat) (h : n ≠ 0) :
    (natStr n).data = (Nat.digits 10 n).reverse.map Nat.digitChar := by
  unfold natStr
  simp only [h, if_false]
  rw [natStrAux_eq n n (le_refl n), List.asString]

theorem natStr_no_dash (n : Nat) : '-' ∉ (natStr n).data := by
  by_cases h : n = 0
  · subst h
    decide
  · intro hmem
    rw [natStr_data n h] at hmem
    rcases List.mem_map.mp hmem with ⟨d, hd, hchar⟩
    have hd10 : d < 10 :=
      Nat.digits_lt_base (by norm_num) (List.mem_reverse.mp hd)
    exact digitChar_ne_dash ⟨d, hd10⟩ hchar

theorem map_digitChar_inj : ∀ (l₁ l₂ : List Nat),
    (∀ d ∈ l₁, d < 10) → (∀ d ∈ l₂, d < 10) →
    l₁.map Nat.digitChar = l₂.map Nat.digitChar → l₁ = l₂ := by
  intro l₁
  induction l₁ with
  | nil =>
    intro l₂ _ _ h
    cases l₂ with
    | nil => rfl
    | cons b bs => simp at h
  | cons a as ih =>
    intro l₂ h₁ h₂ h
    cases l₂ with
    | nil => simp at h
    | cons b bs =>
      simp only [List.map_cons, List.cons.injEq] at h
      have ha : a < 10 := h₁ a (by simp)
      have hb : b < 10 := h₂ b (by simp)
      have hab : a = b := by
        have := digitChar_fin_inj ⟨a, ha⟩ ⟨b, hb⟩ h.1
        exact congrArg Fin.val this
      have : as = bs :=
        ih bs (fun d hd => h₁ d (by simp [hd]))
          (fun d hd => h₂ d (by simp [hd])) h.2
      rw [hab, this]

theorem natStr_inj {m n : Nat} (h : natStr m = natStr n) : m = n := by
  by_cases hm : m = 0 <;> by_cases hn : n = 0
  · rw [hm, hn]
  · exfalso
    have hzero : natStr 0 = "0" := rfl
    have hdata : ("0" : String).data =
        (Nat.digits 10 n).reverse.map Nat.digitChar := by
      rw [← natStr_data n hn, ← h, hm, hzero]
    have hone : ['0'] = (Nat.digits 10 n).reverse.map Nat.digitChar := hdata
    match hds : (Nat.digits 10 n).reverse with
    | [] => rw [hds] at hone; simp at hone
    | d :: ds =>
      rw [hds] at hone
      simp only [List.map_cons, List.cons.injEq] at hone
      have hd10 : d < 10 :=
        Nat.digits_lt_base (by norm_num)
          (List.mem_reverse.mp (hds ▸ List.mem_cons_self d ds))
      have hd0 : d = 0 := by
        have := digitChar_fin_inj ⟨d, hd10⟩ ⟨0, by norm_num⟩ (by
          rw [← hone.1]; rfl)
        exact congrArg Fin.val this
      have hds0 : ds = [] := by
        cases ds with
        | nil => rfl
        | cons x xs => simp at hone
      have hdig : Nat.digits 10 n = [0] := by
        have := congrArg List.reverse hds
        simp only [List.reverse_reverse] at this
        rw [this, hd0, hds0]
        rfl
      have hn0 : n = 0 := by
        have h2 := Nat.ofDigits_digits 10 n
        rw [hdig] at h2
        simp [Nat.ofDigits] at h2
        omega
      exact hn hn0
  · exfalso
    have hzero : natStr 0 = "0" := rfl
    have hdata : ("0" : String).data =
        (Nat.digits 10 m).reverse.map Nat.digitChar := by
      rw [← natStr_data m hm, h, hn, hzero]
    have hone : ['0'] = (Nat.digits 10 m).reverse.map Nat.digitChar := hdata
    match hds : (Nat.digits 10 m).reverse with
    | [] => rw [hds] at hone; simp at hone
    | d :: ds =>
      rw [hds] at hone
      simp only [List.map_cons, List.cons.injEq] at hone
      have hd10 : d < 10 :=
        Nat.digits_lt_base (by norm_num)
          (List.mem_reverse.mp (hds ▸ List.mem_cons_self d ds))
      have hd0 : d = 0 := by
        have := digitChar_fin_inj ⟨d, hd10⟩ ⟨0, by norm_num⟩ (by
          rw [← hone.1]; rfl)
        exact congrArg Fin.val this
      have hds0 : ds = [] := by
        cases ds with
        | nil => rfl
        | cons x xs => simp at hone
      have hdig : Nat.digits 10 m = [0] := by
        have := congrArg List.reverse hds
        simp only [List.reverse_reverse] at this
        rw [this, hd0, hds0]
        rfl
      have hm0 : m = 0 := by
        have h2 := Nat.ofDigits_digits 10 m
        rw [hdig] at h2
        simp [Nat.ofDigits] at h2
        omega
      exact hm hm0
  · have hdata : (Nat.digits 10 m).reverse.map Nat.digitChar =
        (Nat.digits 10 n).reverse.map Nat.digitChar := by
      rw [← natStr_data m hm, ← natStr_data n hn, h]
    have hrev : (Nat.digits 10 m).reverse = (Nat.digits 10 n).reverse := by
      apply map_digitChar_inj
      · intro d hd
        exact Nat.digits_lt_base (by norm_num) (List.mem_reverse.mp hd)
      · intro d hd
        exact Nat.digits_lt_base (by norm_num) (List.mem_reverse.mp hd)
      · exact hdata
    have : Nat.digits 10 m = Nat.digits 10 n :=
      List.reverse_injective hrev
    exact Nat.digits_inj_iff.mp this

theorem dash_split : ∀ (l₁ : List Char) (l₂ t₁ t₂ : List Char),
    '-' ∉ l₁ → '-' ∉ l₂ → l₁ ++ '-' :: t₁ = l₂ ++ '-' :: t₂ →
    l₁ = l₂ ∧ t₁ = t₂ := by
  intro l₁
  induction l₁ with
  | nil =>
    intro l₂ t₁ t₂ _ h₂ h
    cases l₂ with
    | nil => simpa using h
    | cons b bs =>
      simp only [List.nil_append, List.cons_append, List.cons.injEq] at h
      exact absurd (h.1 ▸ List.mem_cons_self b bs) (h.1 ▸ h₂)
  | cons a as ih =>
    intro l₂ t₁ t₂ h₁ h₂ h
    cases l₂ with
    | nil =>
      simp only [List.cons_append, List.nil_append, List.cons.injEq] at h
      exact absurd (h.1 ▸ List.mem_cons_self a as) (h.1 ▸ h₁)
    | cons b bs =>
      simp only [List.cons_append, List.cons.injEq] at h
      have := ih bs t₁ t₂ (fun hm => h₁ (List.mem_cons_of_mem a hm))
        (fun hm => h₂ (List.mem_cons_of_mem b hm)) h.2
      exact ⟨by rw [h.1, this.1], this.2⟩

theorem reactionKey_inj {s₁ s₂ : Nat} {e₁ e₂ : String}
    (h : reactionKey s₁ e₁ = reactionKey s₂ e₂) : s₁ = s₂ ∧ e₁ = e₂ := by
  unfold reactionKey at h
  have hdata := congrArg String.data h
  simp only [String.data_append] at hdata
  simp only [List.append_assoc, List.singleton_append] at hdata
  have := dash_split _ _ _ _ (natStr_no_dash s₁) (natStr_no_dash s₂) hdata
  exact ⟨natStr_inj (String.ext this.1), String.ext this.2⟩

/-! ### Broadcast characterization -/

theorem broadcast_eq (sessions : List (Conn × SessionInfo))
    (fails : Conn → Bool) (m : OutMsg) :
    broadcast sessions fails m =
      (sessions.filter (fun p => !fails p.1),
       (sessions.filter (fun p => !fails p.1)).map (fun p => (p.1, m))) := by
  induction sessions with
  | nil => rfl
  | cons p rest ih =>
    obtain ⟨ws, info⟩ := p
    by_cases h : fails ws
    · simp [broadcast, h, ih, List.filter_cons]
    · simp [broadcast, h, ih, List.filter_cons]

theorem mem_broadcastToPresenters_sent (sessions : List (Conn × SessionInfo))
    (fails : Conn → Bool) (m : OutMsg) (c : Conn) (msg : OutMsg)
    (h : (c, msg) ∈ (broadcastToPresenters sessions fails m).2) :
    msg = m ∧ ∃ info, (c, info) ∈ sessions ∧ info.role = "presenter" := by
  induction sessions with
  | nil => simp [broadcastToPresenters] at h
  | cons p rest ih =>
    obtain ⟨ws, info⟩ := p
    by_cases hrole : info.role = "presenter"
    · by_cases hf : fails ws
      · simp only [broadcastToPresenters, hrole, if_true, hf] at h
        rcases ih h with ⟨h1, info', h2, h3⟩
        exact ⟨h1, info', List.mem_cons_of_mem _ h2, h3⟩
      · simp only [broadcastToPresenters, hrole, if_true, hf,
          if_false, List.mem_cons, Prod.mk.injEq] at h
        cases h with
        | head =>
          exact ⟨rfl, info, List.mem_cons_self _ _, hrole⟩
        | tail _ hr =>
          rcases ih hr with ⟨h1, info', h2, h3⟩
          exact ⟨h1, info', List.mem_cons_of_mem _ h2, h3⟩
    · simp only [broadcastToPresenters, hrole, if_false] at h
      rcases ih h with ⟨h1, info', h2, h3⟩
      exact ⟨h1, info', List.mem_cons_of_mem _ h2, h3⟩

/-! ### Tally step lemmas -/

theorem rCount_handleReaction_self (st : DOState) (fails : Conn → Bool)
    (s : Nat) (e : String) :
    rCount (handleReaction st fails s e).1 s e = rCount st s e + 1 := by
  simp [rCount, handleReaction, mapGet_mapSet_self]

theorem rCount_handleReaction_other (st : DOState) (fails : Conn → Bool)
    (s : Nat) (e : String) (s' : Nat) (e' : String)
    (h : ¬(s' = s ∧ e' = e)) :
    rCount (handleReaction st fails s e).1 s' e' = rCount st s' e' := by
  have hkey : reactionKey s' e' ≠ reactionKey s e := fun hk => h (reactionKey_inj hk)
  simp [rCount, handleReaction, mapGet_mapSet_ne _ _ _ _ hkey]

theorem handleReaction_sent (st : DOState) (fails : Conn → Bool)
    (s : Nat) (e : String) :
    (handleReaction st fails s e).2 =
      (st.sessions.filter (fun p => !fails p.1)).map
        (fun p => (p.1, OutMsg.reaction e s (rCount st s e + 1))) := by
  simp [handleReaction, broadcast_eq, rCount]

theorem rCount_runReactions (fails : Conn → Bool) (s : Nat) (e : String) :
    ∀ (msgs : List (Nat × String)) (st : DOState),
      rCount (runReactions st fails msgs) s e =
        rCount st s e + msgs.countP (fun m => m.1 == s && m.2 == e) := by
  intro msgs
  induction msgs with
  | nil => intro st; simp [runReactions]
  | cons m rest ih =>
    intro st
    rw [runReactions, ih, List.countP_cons]
    by_cases h : m.1 = s ∧ m.2 = e
    · have : rCount (handleReaction st fails m.1 m.2).1 s e
          = rCount st s e + 1 := by
        rw [h.1, h.2]
        exact rCount_handleReaction_self st fails s e
      rw [this]
      simp only [h.1, h.2, beq_self_eq_true, Bool.and_self, if_true]
      omega
    · have hne : ¬(s = m.1 ∧ e = m.2) := fun hc => h ⟨hc.1.symm, hc.2.symm⟩
      rw [rCount_handleReaction_other st fails m.1 m.2 s e hne]
      have : (m.1 == s && m.2 == e) = false := by
        by_cases h1 : m.1 = s
        · by_cases h2 : m.2 = e
          · exact absurd ⟨h1, h2⟩ h
          · simp [h2]
        · simp [h1]
      rw [this]
      simp

/-! ### Concrete demonstration states -/

/-- A small reachable state: presenter connection 0 (token "p") and
audience connection 1 (token "a"), both tokens present, empty tally,
cursor 1. -/
def demoState : DOState :=
  { sessions := [(0, ⟨"presenter", "p"⟩), (1, ⟨"audience", "a"⟩)],
    reactions := [],
    currentSlide := 1,
    participants := ["p", "a"],
    sessionData := [] }

/-- The failure predicate of a run in which no send throws. -/
def noFail : Conn → Bool := fun _ => false

/-- A state in which the single token "t" has two live connections. -/
def twoConnState : DOState :=
  { sessions := [(0, ⟨"audience", "t"⟩), (1, ⟨"audience", "t"⟩)],
    reactions := [],
    currentSlide := 1,
    participants := ["t"],
    sessionData := [] }

/-- `rCount` only looks at the `reactions` field. -/
theorem rCount_congr {x y : DOState} (h : x.reactions = y.reactions)
    (s : Nat) (e : String) : rCount x s e = rCount y s e := by
  simp [rCount, h]

theorem mem_mapSet_self {α β : Type} [DecidableEq α] (l : List (α × β))
    (k : α) (v : β) : (k, v) ∈ mapSet l k v := by
  induction l with
  | nil => simp [mapSet]
  | cons p rest ih =>
    obtain ⟨a, b⟩ := p
    by_cases h : a = k
    · simp [mapSet, h]
    · simp only [mapSet, h, if_false, List.mem_cons]
      exact Or.inr ih

/-! ### Claims -/

/-- C1: for every sequence of reaction submissions, the tally count of
a (slide, symbol) pair grows by exactly the number of submissions for
that exact pair — from a fresh tally it equals that number — and every
single submission increments its bucket by one and broadcasts a
reaction message whose count field is the post-increment count of that
pair. -/
theorem C1_tally_counts_and_broadcast :
    (∀ (st : DOState) (fails : Conn → Bool) (msgs : List (Nat × String))
        (s : Nat) (e : String),
      rCount (runReactions st fails msgs) s e =
        rCount st s e + msgs.countP (fun m => m.1 == s && m.2 == e)) ∧
    (∀ (st : DOState) (fails : Conn → Bool) (s : Nat) (e : String),
      rCount (handleReaction st fails s e).1 s e = rCount st s e + 1 ∧
      (handleReaction st fails s e).2 =
        (st.sessions.filter (fun p => !fails p.1)).map
          (fun p => (p.1, OutMsg.reaction e s
            (rCount (handleReaction st fails s e).1 s e)))) := by
  constructor
  · intro st fails msgs s e
    exact rCount_runReactions fails s e msgs st
  · intro st fails s e
    refine ⟨rCount_handleReaction_self st fails s e, ?_⟩
    rw [rCount_handleReaction_self st fails s e]
    exact handleReaction_sent st fails s e

/-- C2 counterexample: with cursor 1 and any session slide count (3
here), a slide-change request to 999 is not rejected and mutates the
cursor to 999, so the operation neither returns SlideOutOfRange nor
leaves the state unchanged. -/
theorem C2_counterexample :
    ¬(999 ≤ 3) ∧ demoState.currentSlide = 1 ∧
    (handleSlideChange demoState noFail 999).1.currentSlide = 999 := by
  refine ⟨by decide, rfl, rfl⟩

/-- C2 amended: `handleSlideChange` performs no range validation and
has no rejection path: for every requested value it sets the cursor to
that value, leaves tally, participant set and session data unchanged,
and broadcasts the slide change to all non-failing connections; the
cursor is therefore not confined to the range `[1, slideCount]`. -/
theorem C2_slide_change_unvalidated (st : DOState) (fails : Conn → Bool)
    (s : Nat) :
    (handleSlideChange st fails s).1.currentSlide = s ∧
    (handleSlideChange st fails s).1.reactions = st.reactions ∧
    (handleSlideChange st fails s).1.participants = st.participants ∧
    (handleSlideChange st fails s).1.sessionData = st.sessionData ∧
    (handleSlideChange st fails s).2 =
      (st.sessions.filter (fun p => !fails p.1)).map
        (fun p => (p.1, OutMsg.slideChange s)) := by
  refine ⟨rfl, rfl, rfl, rfl, ?_⟩
  simp [handleSlideChange, broadcast_eq]

/-- C3 counterexample: the symbol 💀 is outside the default allowed
reaction set, yet submitting it is not rejected: a fresh tally bucket
is created for it with count 1 and a reaction broadcast goes out to
both connections. -/
theorem C3_counterexample :
    ("💀" ∉ DEFAULT_REACTIONS) ∧
    (handleReaction demoState noFail 1 "💀").1.reactions
      = [(reactionKey 1 "💀", 1)] ∧
    (handleReaction demoState noFail 1 "💀").2 =
      [(0, OutMsg.reaction "💀" 1 1), (1, OutMsg.reaction "💀" 1 1)] := by
  refine ⟨by decide, rfl, rfl⟩

/-- C3 amended: `handleReaction` performs no symbol validation at all:
every submitted symbol, whether or not it is in the session allowed
set, has its bucket incremented (created at count 1 when absent) and a
reaction broadcast is sent; no submission is rejected. -/
theorem C3_no_symbol_validation (st : DOState) (fails : Conn → Bool)
    (s : Nat) (e : String) :
    rCount (handleReaction st fails s e).1 s e = rCount st s e + 1 ∧
    (handleReaction st fails s e).2 =
      (st.sessions.filter (fun p => !fails p.1)).map
        (fun p => (p.1, OutMsg.reaction e s (rCount st s e + 1))) :=
  ⟨rCount_handleReaction_self st fails s e, handleReaction_sent st fails s e⟩

/-- C4 counterexample: connection 1 is registered with role audience,
yet its slideChange request is applied: the cursor moves from 1 to 2
instead of failing with Forbidden. -/
theorem C4_counterexample :
    mapGet demoState.sessions 1 = some ⟨"audience", "a"⟩ ∧
    demoState.currentSlide = 1 ∧
    (handleWebSocketMessage demoState noFail 1 "g"
      (.slideChange 2)).1.currentSlide = 2 := by
  refine ⟨by decide, rfl, rfl⟩

/-- C4 amended: the message handler applies slideChange with no role
check: a request arriving from a connection registered with any
non-presenter role still sets the cursor and triggers the slideChange
broadcast to all non-failing connections. -/
theorem C4_no_role_check (st : DOState) (fails : Conn → Bool) (ws : Conn)
    (gen : String) (s : Nat) (info : SessionInfo)
    (_hreg : mapGet st.sessions ws = some info)
    (_hrole : info.role ≠ "presenter") :
    (handleWebSocketMessage st fails ws gen (.slideChange s)).1.currentSlide
      = s ∧
    (handleWebSocketMessage st fails ws gen (.slideChange s)).2 =
      (st.sessions.filter (fun p => !fails p.1)).map
        (fun p => (p.1, OutMsg.slideChange s)) := by
  refine ⟨rfl, ?_⟩
  simp [handleWebSocketMessage, handleSlideChange, broadcast_eq]

theorem C4_no_role_check_witness :
    (handleWebSocketMessage demoState noFail 1 "g"
      (.slideChange 2)).1.currentSlide = 2 ∧
    (handleWebSocketMessage demoState noFail 1 "g" (.slideChange 2)).2 =
      (demoState.sessions.filter (fun p => !noFail p.1)).map
        (fun p => (p.1, OutMsg.slideChange 2)) :=
  C4_no_role_check demoState noFail 1 "g" 2 ⟨"audience", "a"⟩
    (by decide) (by decide)

/-- C5: every message delivered by a question submission is the
question message carrying the submitting token, and it goes only to
connections registered in the registry with role presenter. -/
theorem C5_questions_to_presenters_only (st : DOState) (fails : Conn → Bool)
    (text : String) (s : Nat) (tok : Option String) (c : Conn) (msg : OutMsg)
    (h : (c, msg) ∈ (handleQuestion st fails text s tok).2) :
    msg = OutMsg.question text s tok ∧
    ∃ info, (c, info) ∈ st.sessions ∧ info.role = "presenter" :=
  mem_broadcastToPresenters_sent st.sessions fails _ c msg h

theorem C5_questions_to_presenters_only_witness :
    OutMsg.question "q" 1 (some "a") = OutMsg.question "q" 1 (some "a") ∧
    ∃ info, ((0 : Conn), info) ∈ demoState.sessions ∧
      info.role = "presenter" :=
  C5_questions_to_presenters_only demoState noFail "q" 1 (some "a") 0
    (OutMsg.question "q" 1 (some "a")) (by decide)

/-- C6 counterexample: token "t" has two live connections 0 and 1;
when connection 0 closes, the token is nevertheless removed from the
participant set (which becomes empty) although connection 1 with the
same token is still registered, and the resulting participant-count
broadcast reports 0. -/
theorem C6_counterexample :
    (handleClose twoConnState noFail 0).1.participants = [] ∧
    (handleClose twoConnState noFail 0).1.sessions
      = [(1, ⟨"audience", "t"⟩)] ∧
    (handleClose twoConnState noFail 0).2
      = [(1, OutMsg.participantsCount 0)] := by
  refine ⟨rfl, rfl, rfl⟩

/-- C6 amended: when a connection registered with a nonempty token
closes, its token is deleted from the participant set unconditionally —
even if other live connections carry the same token — and the closing
connection is removed from the registry. -/
theorem C6_token_removed_unconditionally (st : DOState)
    (fails : Conn → Bool) (ws : Conn) (info : SessionInfo)
    (hreg : mapGet st.sessions ws = some info)
    (htok : info.sessionToken ≠ "") :
    (handleClose st fails ws).1.participants
      = st.participants.erase info.sessionToken ∧
    (handleClose st fails ws).1.sessions
      = (mapDelete st.sessions ws).filter (fun p => !fails p.1) := by
  unfold handleClose
  rw [hreg]
  simp [htok, broadcastParticipantCount, broadcast_eq]

theorem C6_token_removed_unconditionally_witness :
    (handleClose twoConnState noFail 0).1.participants
      = twoConnState.participants.erase "t" ∧
    (handleClose twoConnState noFail 0).1.sessions
      = (mapDelete twoConnState.sessions 0).filter (fun p => !noFail p.1) :=
  C6_token_removed_unconditionally twoConnState noFail 0 ⟨"audience", "t"⟩
    (by decide) (by decide)

/-- C7 counterexample: after closing the session (directory record
marked inactive, close notice broadcast to both connections), the
connections are still registered — nothing forcibly disconnects them —
and a subsequent reaction submission succeeds, incrementing the tally
to 1, instead of failing with SessionClosed. -/
theorem C7_counterexample :
    (closeSession ⟨true⟩).1.is_active = false ∧
    (handleNotify demoState noFail (closeSession ⟨true⟩).2).1.sessions
      = demoState.sessions ∧
    (handleNotify demoState noFail (closeSession ⟨true⟩).2).2 =
      [(0, OutMsg.close), (1, OutMsg.close)] ∧
    rCount (handleReaction
      (handleNotify demoState noFail (closeSession ⟨true⟩).2).1
      noFail 1 "👍").1 1 "👍" = 1 := by
  refine ⟨rfl, rfl, rfl, by decide⟩

/-- C7 amended: closing a session marks the directory record inactive
and broadcasts the posted close notice to every non-failing
connection, but it does not disconnect any connection (non-failing
connections stay registered) and the coordinator keeps accepting
operations afterwards: a subsequent reaction still increments the
tally — there is no SessionClosed failure. -/
theorem C7_close_does_not_stop_coordinator (db : DirectoryRecord)
    (st : DOState) (fails : Conn → Bool) (s : Nat) (e : String) :
    (closeSession db).1.is_active = false ∧
    (handleNotify st fails (closeSession db).2).2 =
      (st.sessions.filter (fun p => !fails p.1)).map
        (fun p => (p.1, OutMsg.close)) ∧
    (handleNotify st fails (closeSession db).2).1.sessions =
      st.sessions.filter (fun p => !fails p.1) ∧
    rCount (handleReaction (handleNotify st fails (closeSession db).2).1
        fails s e).1 s e
      = rCount (handleNotify st fails (closeSession db).2).1 s e + 1 := by
  refine ⟨rfl, ?_, ?_, rCount_handleReaction_self _ fails s e⟩ <;>
    simp [handleNotify, closeSession, broadcast_eq]

/-- C8: broadcast delivers to each connection independently: every
non-failing connection receives the message, a failing connection is
removed from the registry while all others are kept and still served,
and the originating reaction submission still updates its tally (the
send failures do not surface as an operation error). -/
theorem C8_broadcast_failure_isolation (sessions : List (Conn × SessionInfo))
    (fails : Conn → Bool) (m : OutMsg) (st : DOState) (s : Nat) (e : String) :
    (broadcast sessions fails m).2 =
      (sessions.filter (fun p => !fails p.1)).map (fun p => (p.1, m)) ∧
    (broadcast sessions fails m).1 = sessions.filter (fun p => !fails p.1) ∧
    rCount (handleReaction st fails s e).1 s e = rCount st s e + 1 := by
  refine ⟨?_, ?_, rCount_handleReaction_self st fails s e⟩ <;>
    simp [broadcast_eq]

/-- C9: a single step of the durable object — any inbound message,
connection close, notify or init — never decreases any tally bucket,
and a slide change leaves the tally map exactly unchanged. -/
theorem C9_tally_monotone (st : DOState) (fails : Conn → Bool) (ev : Event)
    (s : Nat) (e : String) :
    rCount st s e ≤ rCount (step st fails ev).1 s e ∧
    ∀ s', (handleSlideChange st fails s').1.reactions = st.reactions := by
  refine ⟨?_, fun s' => rfl⟩
  cases ev with
  | message ws gen m =>
    cases m with
    | join role tok =>
      by_cases h : fails ws <;>
        simp [step, handleWebSocketMessage, h, rCount]
    | reaction e' s' tok =>
      by_cases h : s = s' ∧ e = e'
      · rw [show (step st fails (.message ws gen (.reaction e' s' tok))).1
            = (handleReaction st fails s' e').1 from rfl, h.1, h.2,
          rCount_handleReaction_self]
        omega
      · rw [show (step st fails (.message ws gen (.reaction e' s' tok))).1
            = (handleReaction st fails s' e').1 from rfl,
          rCount_handleReaction_other st fails s' e' s e h]
    | question text slide tok => simp [step, handleWebSocketMessage,
        handleQuestion, rCount]
    | slideChange slide => simp [step, handleWebSocketMessage,
        handleSlideChange, rCount]
    | update data => simp [step, handleWebSocketMessage, handleUpdate,
        rCount]
    | ping => by_cases h : fails ws <;>
        simp [step, handleWebSocketMessage, h, rCount]
  | closeEvt ws => simp [step, handleClose, rCount]
  | notifyEvt data => simp [step, handleNotify, rCount]
  | initEvt data => simp [step, handleInit, rCount]

/-- C10: a join carrying no session token registers the connection
under the generated anonymous token, adds nothing to the participant
set, still sends the joining connection the init snapshot — whose
participant count therefore excludes anonymous connections — and a
later close of a connection registered under a fresh generated token
leaves the participant set unchanged. -/
theorem C10_anonymous_join (st : DOState) (fails : Conn → Bool) (ws : Conn)
    (gen : String) (role : String) (hws : fails ws = false) :
    (handleWebSocketMessage st fails ws gen (.join role none)).1.participants
      = st.participants ∧
    (handleWebSocketMessage st fails ws gen (.join role none)).2 =
      (ws, OutMsg.init st.currentSlide st.reactions st.participants.length)
        :: ((mapSet st.sessions ws ⟨role, gen⟩).filter
              (fun p => !fails p.1)).map
            (fun p => (p.1, OutMsg.participantsCount
              st.participants.length)) ∧
    (ws, SessionInfo.mk role gen)
      ∈ (handleWebSocketMessage st fails ws gen (.join role none)).1.sessions ∧
    (∀ st2 : DOState, mapGet st2.sessions ws = some ⟨role, gen⟩ →
      gen ∉ st2.participants →
      (handleClose st2 fails ws).1.participants = st2.participants) := by
  refine ⟨?_, ?_, ?_, ?_⟩
  · simp [handleWebSocketMessage, hws]
  · simp [handleWebSocketMessage, hws, broadcastParticipantCount,
      broadcast_eq]
  · simp only [handleWebSocketMessage, hws, Bool.false_eq_true, if_false]
    rw [broadcastParticipantCount, broadcast_eq]
    refine List.mem_filter.mpr ⟨mem_mapSet_self _ _ _, ?_⟩
    simp only [hws, Bool.not_false]
  · intro st2 hreg hfresh
    unfold handleClose
    rw [hreg]
    by_cases hgen : gen = ""
    · simp [hgen]
    · simp only [hgen, ne_eq, not_false_eq_true, if_true]
      exact List.erase_of_not_mem hfresh

theorem C10_anonymous_join_witness :
    (handleWebSocketMessage demoState noFail 5 "anon-1"
      (.join "audience" none)).1.participants = demoState.participants ∧
    (handleClose
      { sessions := [(5, ⟨"audience", "anon-1"⟩)], reactions := [],
        currentSlide := 1, participants := ["p"], sessionData := [] }
      noFail 5).1.participants = ["p"] :=
  ⟨(C10_anonymous_join demoState noFail 5 "anon-1" "audience" rfl).1,
   (C10_anonymous_join demoState noFail 5 "anon-1" "audience" rfl).2.2.2
     { sessions := [(5, ⟨"audience", "anon-1"⟩)], reactions := [],
       currentSlide := 1, participants := ["p"], sessionData := [] }
     (by decide) (by decide)⟩

end SlidevFeedback
